import Mathlib

/-!
Shallow embedding of the raster-overlay core of conus-data-viz
(src/app.js and src/states.js): the value-to-color transfer pipeline,
the display-range controller, the coordinate-to-cell resolver, the
overlay load/replace lifecycle and the hover rate limiter.

Modelling conventions:
- JavaScript numbers are modelled exactly as rationals; a possibly-NaN
  JavaScript number is `JsNum := Option ℚ` with `none` standing for NaN
  (the only non-finite value reachable from JSON manifests on the paths
  embedded here).  NaN-propagating arithmetic is modelled explicitly.
- The chroma-js colormap is an abstract function parameter: colormap
  application with default domain clamps its argument into the unit
  interval, and `.domain([a,b])` first remaps linearly from `[a,b]`,
  matching chroma scale semantics.
- Asynchronous code (dataset loads, the hover handler) is modelled by
  splitting each async function at its suspension points into explicit
  state-transition functions applied along interleaving traces.
-/

/-- A JavaScript number on these code paths: `some q` for a finite value,
`none` for NaN. -/
abbrev JsNum := Option ℚ

/-- NaN-propagating subtraction on JavaScript numbers. -/
def jsub : JsNum → JsNum → JsNum
  | some a, some b => some (a - b)
  | _, _ => none

/-- NaN-propagating division on JavaScript numbers (only ever applied with
a nonzero denominator in this development). -/
def jdiv : JsNum → JsNum → JsNum
  | some a, some b => some (a / b)
  | _, _ => none

/-- JavaScript `Math.min` on two arguments: NaN if either argument is NaN. -/
def jmin : JsNum → JsNum → JsNum
  | some a, some b => some (min a b)
  | _, _ => none

/-- JavaScript `Math.max` on two arguments: NaN if either argument is NaN. -/
def jmax : JsNum → JsNum → JsNum
  | some a, some b => some (max a b)
  | _, _ => none

/-- JavaScript `x || 1`: both `0` and NaN are falsy, so they give `1`;
every other number is kept.  Models `(max - min) || 1` in
src/states.js line 476. -/
def orOne : JsNum → JsNum
  | some q => if q = 0 then some 1 else some q
  | none => some 1

/-- The clamp `Math.max(0, Math.min(1, x))` used throughout the source. -/
def clamp01 (q : ℚ) : ℚ := max 0 (min 1 q)

/-- Application of a chroma scale with its default `[0,1]` domain:
`chroma.scale(name)(x)`.  The base colormap `base` is abstract; chroma
clamps the argument into the domain. -/
def chromaScale01 {α : Type} (base : ℚ → α) (x : ℚ) : α :=
  base (clamp01 x)

/-- Application of a chroma scale after `.domain([a, b])`: the argument is
linearly remapped from `[a,b]` to `[0,1]` and clamped. -/
def chromaScaleDomain {α : Type} (base : ℚ → α) (a b x : ℚ) : α :=
  base (clamp01 ((x - a) / (b - a)))

/-- One gradient stop of the legend built by `makeLegend` in
src/app.js lines 13-20: the colormap with domain `[mn, mx]` sampled at
`mn + t * (mx - mn)` for `t = i / (steps - 1)`. -/
def makeLegendStop {α : Type} (base : ℚ → α) (mn mx t : ℚ) : α :=
  chromaScaleDomain base mn mx (mn + t * (mx - mn))

/-- The normalization performed by `pixelValuesToColorFn` in src/app.js
lines 74-77: clamp of `(v - displayMin) / (displayMax - displayMin)`
into `[0, 1]`. -/
def appNormalize (mn mx v : ℚ) : ℚ :=
  clamp01 ((v - mn) / (mx - mn))

/-- The full pixel-evaluation hook of src/app.js lines 69-80: takes the
array of band values, returns `none` (no color) when the first value is
missing, null or NaN, and otherwise the colormap applied to the clamped
normalized value. -/
def appPixelColor {α : Type} (base : ℚ → α) (mn mx : ℚ)
    (vals : List JsNum) : Option α :=
  match vals.head? with
  | none => none
  | some none => none
  | some (some v) => some (chromaScale01 base (appNormalize mn mx v))

/-- Georeferencing metadata of a decoded georaster as read by the hover
handler in src/app.js line 130. -/
structure Georaster where
  xmin : ℚ
  ymax : ℚ
  pixelWidth : ℚ
  pixelHeight : ℚ
  width : ℤ
  height : ℤ
  deriving DecidableEq

/-- The coordinate-to-cell resolution of the hover handler, src/app.js
lines 132-138: floor division to a column and row, then the bounds
check `col < 0 || row < 0 || col >= width || row >= height` deciding
between an out-of-bounds result (`none`) and the cell `(row, col)`. -/
def resolveCell (g : Georaster) (lat lng : ℚ) : Option (ℤ × ℤ) :=
  let col : ℤ := ⌊(lng - g.xmin) / g.pixelWidth⌋
  let row : ℤ := ⌊(g.ymax - lat) / g.pixelHeight⌋
  if col < 0 ∨ row < 0 ∨ g.width ≤ col ∨ g.height ≤ row then none
  else some (row, col)

/-- A manifest grid entry as consumed by src/states.js: reported value
bounds, possibly NaN after `Number(...)` coercion of a missing or
malformed field. -/
structure GridEntry where
  min : JsNum
  max : JsNum
  deriving DecidableEq

/-- The module-level state of the grid overlay in src/states.js that the
embedded functions read and write: the installed layer and georaster,
the current manifest entry, the user display maximum and slider state,
and the legend contents (`none` models a cleared legend container).
The slider elements are assumed present. -/
structure GridState where
  gridLayer : Option Nat
  mapLayers : List Nat
  gridGeoraster : Option Nat
  currentGridEntry : Option GridEntry
  gridDisplayMax : Option ℚ
  gridMaxT : ℚ
  sliderDisabled : Bool
  sliderText : Option ℚ
  legendHTML : Option (JsNum × JsNum)
  deriving DecidableEq

/-- The initial module state of src/states.js lines 78-88. -/
def gridEmpty0 : GridState :=
  { gridLayer := none, mapLayers := [], gridGeoraster := none,
    currentGridEntry := none, gridDisplayMax := none, gridMaxT := 1,
    sliderDisabled := false, sliderText := none, legendHTML := none }

/-- `syncGridMaxSliderFromEntry` of src/states.js lines 365-392: with no
current entry it returns early; with non-finite or degenerate bounds it
disables the slider and clears its value text; otherwise it defaults
`gridDisplayMax` to the data maximum, clamps it into the data bounds,
and recomputes the normalized slider position. -/
def syncGridMaxSliderFromEntry (gs : GridState) : GridState :=
  match gs.currentGridEntry with
  | none => gs
  | some e =>
    match e.min, e.max with
    | some dataMin, some dataMax =>
      if dataMax ≤ dataMin then
        { gs with sliderDisabled := true, sliderText := none }
      else
        let gdm0 :=
          match gs.gridDisplayMax with
          | none => dataMax
          | some g => g
        let gdm := max dataMin (min dataMax gdm0)
        let t := clamp01 ((gdm - dataMin) / (dataMax - dataMin))
        { gs with sliderDisabled := false, gridDisplayMax := some gdm,
                  gridMaxT := t, sliderText := some gdm }
    | _, _ => { gs with sliderDisabled := true, sliderText := none }

/-- `updateGridLegend` of src/states.js lines 394-432: with no current
entry the legend container is cleared; otherwise it shows the entry
minimum and the effective display maximum (`gridDisplayMax` when set,
the entry maximum otherwise). -/
def updateGridLegend (gs : GridState) : GridState :=
  match gs.currentGridEntry with
  | none => { gs with legendHTML := none }
  | some e =>
    let mx :=
      match gs.gridDisplayMax with
      | some g => some g
      | none => e.max
    { gs with legendHTML := some (e.min, mx) }

/-- The `gridMaxSliderEl` input handler of src/states.js lines 887-901:
ignores the event with no entry or non-finite or degenerate bounds;
otherwise recomputes `gridMaxT` from the slider position in `[0, 1000]`
and sets `gridDisplayMax = dataMin + t * (dataMax - dataMin)`, then
updates the value text and the legend. -/
def gridMaxSliderInput (gs : GridState) (sliderVal : ℚ) : GridState :=
  match gs.currentGridEntry with
  | none => gs
  | some e =>
    match e.min, e.max with
    | some dataMin, some dataMax =>
      if dataMax ≤ dataMin then gs
      else
        let t := sliderVal / 1000
        let gdm := dataMin + t * (dataMax - dataMin)
        updateGridLegend
          { gs with gridMaxT := t, gridDisplayMax := some gdm,
                    sliderText := some gdm }
    | _, _ => gs

/-- The manifest-miss path of `setGridLayer`, src/states.js lines
440-454: the existing layer is removed from the map and the layer and
georaster references cleared, the current entry is reset to null, and
the slider is re-synchronized (a no-op with a null entry).
`updateGridLegend` is not called on this path. -/
def setGridLayerMissBranch (gs : GridState) : GridState :=
  let gs1 :=
    match gs.gridLayer with
    | some l =>
      { gs with mapLayers := gs.mapLayers.erase l,
                gridLayer := none, gridGeoraster := none }
    | none => gs
  syncGridMaxSliderFromEntry { gs1 with currentGridEntry := none }

/-- The effective minimum read by the grid pixel function,
src/states.js line 473: `Number(currentGridEntry?.min ?? 0)`. -/
def gridMinOf (gs : GridState) : JsNum :=
  match gs.currentGridEntry with
  | none => some 0
  | some e => e.min

/-- The raw maximum read by the grid pixel function, src/states.js
line 474: `Number(currentGridEntry?.max ?? 1)`. -/
def gridMaxRawOf (gs : GridState) : JsNum :=
  match gs.currentGridEntry with
  | none => some 1
  | some e => e.max

/-- The effective maximum of src/states.js line 475: `gridDisplayMax`
when non-null, the raw maximum otherwise. -/
def gridMaxOf (gs : GridState) : JsNum :=
  match gs.gridDisplayMax with
  | some g => some g
  | none => gridMaxRawOf gs

/-- The guarded denominator of src/states.js line 476:
`(max - min) || 1`. -/
def gridDenom (gs : GridState) : JsNum :=
  orOne (jsub (gridMaxOf gs) (gridMinOf gs))

/-- The clamped normalized value of src/states.js line 478:
`Math.max(0, Math.min(1, (v - min) / denom))`. -/
def gridPixelT (gs : GridState) (v : ℚ) : JsNum :=
  jmax (some 0) (jmin (some 1) (jdiv (jsub (some v) (gridMinOf gs)) (gridDenom gs)))

/-- The grid `pixelValuesToColorFn` of src/states.js lines 469-480:
`none` when the first band value is missing, null or NaN, and otherwise
the colormap applied to the normalized value. -/
def gridPixelColor {α : Type} (base : JsNum → α) (gs : GridState)
    (vals : List JsNum) : Option α :=
  match vals.head? with
  | none => none
  | some none => none
  | some (some v) => some (base (gridPixelT gs v))

/-- Degenerate or non-finite reported bounds of a manifest entry: NaN in
either bound, or a maximum not exceeding the minimum. -/
def degenerateBounds (e : GridEntry) : Prop :=
  match e.min, e.max with
  | some a, some b => b ≤ a
  | _, _ => True

/-- A manifest entry as consumed by `loadLayer` in src/app.js: finite
reported value bounds. -/
structure AppEntry where
  min : ℚ
  max : ℚ
  deriving DecidableEq

/-- The module-level state of src/app.js that `loadLayer` and
`updateColorScale` read and write: the installed layer object and the
set of layers on the map, the active georaster, the display range, the
legend contents, a redraw counter, and the fetches in flight
(load id paired with dataset id). -/
structure AppState where
  rasterLayer : Option Nat
  mapLayers : List Nat
  currentGeoraster : Option Nat
  displayMin : Option ℚ
  displayMax : Option ℚ
  legend : Option (ℚ × ℚ)
  redraws : Nat
  pending : List (Nat × Nat)
  deriving DecidableEq

/-- The initial module state of src/app.js lines 1-10. -/
def appEmpty0 : AppState :=
  { rasterLayer := none, mapLayers := [], currentGeoraster := none,
    displayMin := none, displayMax := none, legend := none,
    redraws := 0, pending := [] }

/-- The synchronous prefix of `loadLayer`, src/app.js lines 35-60: an
absent manifest entry returns immediately with nothing changed;
otherwise the display range is initialized from the entry bounds, the
legend is rendered, the layer referenced by `rasterLayer` is removed
from the map (the variable itself is not cleared), and the fetch is
issued.  The suspension at `await fetch` splits the function here. -/
def issueLoadLayer (loadId datasetId : Nat) (entry : Option AppEntry)
    (st : AppState) : AppState :=
  match entry with
  | none => st
  | some e =>
    let st1 := { st with displayMin := some e.min, displayMax := some e.max,
                         legend := some (e.min, e.max) }
    let st2 :=
      match st1.rasterLayer with
      | some l => { st1 with mapLayers := st1.mapLayers.erase l }
      | none => st1
    { st2 with pending := (loadId, datasetId) :: st2.pending }

/-- The continuation of `loadLayer` after its fetch resolves, src/app.js
lines 61-83: the decoded georaster is installed as current, a new layer
is constructed, stored in `rasterLayer` and added to the map.  No check
compares the resolving load against the most recently issued one. -/
def resolveLoadLayer (loadId : Nat) (st : AppState) : AppState :=
  match st.pending.find? (fun p => p.1 == loadId) with
  | none => st
  | some p =>
    { st with currentGeoraster := some p.2,
              rasterLayer := some p.1,
              mapLayers := p.1 :: st.mapLayers,
              pending := st.pending.filter (fun q => q.1 != loadId) }

/-- `updateColorScale` of src/app.js lines 181-194: the slider values
are stored into `displayMin` and `displayMax` first; only then is an
inverted range detected, in which case the function returns without
re-rendering the legend or redrawing the layer. -/
def updateColorScale (st : AppState) (mn mx : ℚ) : AppState :=
  let st1 := { st with displayMin := some mn, displayMax := some mx }
  if mx ≤ mn then st1
  else { st1 with legend := some (mn, mx), redraws := st1.redraws + 1 }

/-- The denominator `displayMax - displayMin` used without any guard by
the pixel hook of src/app.js line 76. -/
def appDenom (st : AppState) : JsNum :=
  jsub st.displayMax st.displayMin

/-- The state of the hover rate limiter of src/app.js lines 123-168:
the `hoverRAF` guard, the animation-frame callbacks scheduled but not
yet run, and the hover computations whose asynchronous `getValues`
fetch is still pending. -/
structure HoverState where
  hoverRAF : Option Nat
  scheduled : List Nat
  inFlight : List Nat
  deriving DecidableEq

/-- The initial hover state: no callback scheduled, nothing in flight. -/
def hoverInitial : HoverState :=
  { hoverRAF := none, scheduled := [], inFlight := [] }

/-- A `mousemove` event, src/app.js lines 123-125: dropped when
`hoverRAF` is set, otherwise an animation-frame callback is scheduled
and recorded in the guard. -/
def hoverMousemove (cb : Nat) (st : HoverState) : HoverState :=
  match st.hoverRAF with
  | some _ => st
  | none => { st with hoverRAF := some cb, scheduled := cb :: st.scheduled }

/-- The scheduled callback starting to run, src/app.js lines 125-151:
its first action clears `hoverRAF`, then (on a lazily decoded raster)
it suspends awaiting `getValues`, joining the in-flight computations. -/
def hoverFire (cb : Nat) (st : HoverState) : HoverState :=
  if cb ∈ st.scheduled then
    { st with hoverRAF := none, scheduled := st.scheduled.erase cb,
              inFlight := cb :: st.inFlight }
  else st

/-- The asynchronous `getValues` fetch of a hover computation
resolving, src/app.js lines 144-152. -/
def hoverResolve (cb : Nat) (st : HoverState) : HoverState :=
  { st with inFlight := st.inFlight.erase cb }

/-- The states reachable from the initial hover state by any
interleaving of pointer events, callback starts and fetch
resolutions. -/
inductive HoverReachable : HoverState → Prop
  | init : HoverReachable hoverInitial
  | move (cb : Nat) (st : HoverState) :
      HoverReachable st → HoverReachable (hoverMousemove cb st)
  | fire (cb : Nat) (st : HoverState) :
      HoverReachable st → HoverReachable (hoverFire cb st)
  | res (cb : Nat) (st : HoverState) :
      HoverReachable st → HoverReachable (hoverResolve cb st)

/-- A state with a layer installed and its legend rendered, as after a
successful load of an entry with bounds `(0, 10)` into layer `0` for
dataset `0`. -/
def appLegend0 : AppState :=
  { rasterLayer := some 0, mapLayers := [0], currentGeoraster := some 0,
    displayMin := some 0, displayMax := some 10, legend := some (0, 10),
    redraws := 0, pending := [] }

/-- A grid state with a layer `5` installed for the entry with bounds
`(0, 10)` and its legend rendered. -/
def gridStale0 : GridState :=
  { gridLayer := some 5, mapLayers := [5], gridGeoraster := some 5,
    currentGridEntry := some ⟨some 0, some 10⟩, gridDisplayMax := none,
    gridMaxT := 1, sliderDisabled := false, sliderText := some 10,
    legendHTML := some (some 0, some 10) }

/-- The superseded-load interleaving: from a ready state, load `1` of
dataset `1` is issued, then load `2` of dataset `2` is issued before
load `1` resolves; load `2` resolves first and load `1` resolves
last. -/
def raceTrace : AppState :=
  resolveLoadLayer 1 (resolveLoadLayer 2 (issueLoadLayer 2 2 (some ⟨2, 3⟩)
    (issueLoadLayer 1 1 (some ⟨0, 1⟩) appLegend0)))

/-- C3: for every dataset with positive dimensions and cell sizes, the
hover coordinate resolution computes `col = floor((lng - originX) / cellWidth)`
and `row = floor((originY - lat) / cellHeight)`, returns the cell
`(row, col)` exactly when `0 ≤ col < width` and `0 ≤ row < height` and
the out-of-bounds sentinel otherwise (it is a total function, so it
never throws), and the coordinate at the raster origin resolves to
`(row = 0, col = 0)`. -/
theorem resolveCell_spec (g : Georaster)
    (hcw : 0 < g.pixelWidth) (hch : 0 < g.pixelHeight)
    (hw : 0 < g.width) (hh : 0 < g.height) :
    (∀ lat lng : ℚ,
      resolveCell g lat lng =
        if 0 ≤ ⌊(lng - g.xmin) / g.pixelWidth⌋ ∧
           ⌊(lng - g.xmin) / g.pixelWidth⌋ < g.width ∧
           0 ≤ ⌊(g.ymax - lat) / g.pixelHeight⌋ ∧
           ⌊(g.ymax - lat) / g.pixelHeight⌋ < g.height
        then some (⌊(g.ymax - lat) / g.pixelHeight⌋,
                   ⌊(lng - g.xmin) / g.pixelWidth⌋)
        else none) ∧
    resolveCell g g.ymax g.xmin = some (0, 0) := by
  constructor
  · intro lat lng
    unfold resolveCell
    by_cases h : ⌊(lng - g.xmin) / g.pixelWidth⌋ < 0 ∨
        ⌊(g.ymax - lat) / g.pixelHeight⌋ < 0 ∨
        g.width ≤ ⌊(lng - g.xmin) / g.pixelWidth⌋ ∨
        g.height ≤ ⌊(g.ymax - lat) / g.pixelHeight⌋
    · rw [if_pos h, if_neg]
      omega
    · rw [if_neg h, if_pos]
      omega
  · unfold resolveCell
    have h1 : (g.xmin - g.xmin) / g.pixelWidth = 0 := by
      rw [sub_self, zero_div]
    have h2 : (g.ymax - g.ymax) / g.pixelHeight = 0 := by
      rw [sub_self, zero_div]
    rw [h1, h2]
    simp only [Int.floor_zero]
    rw [if_neg]
    omega

/-- Witness for C3: the concrete grid of spec section 8
(origin `(-10, 10)`, cell size `5`, dimensions `2 × 2`); its origin
coordinate resolves to cell `(0, 0)`. -/
theorem resolveCell_spec_witness :
    resolveCell ⟨-10, 10, 5, 5, 2, 2⟩ 10 (-10) = some (0, 0) :=
  (resolveCell_spec ⟨-10, 10, 5, 5, 2, 2⟩ (by norm_num) (by norm_num)
    (by norm_num) (by norm_num)).2

/-- C4: for every display range with `min < max`, the normalization of
src/app.js equals `clamp((v - min) / (max - min), 0, 1)`, sends `min` to
`0` and `max` to `1`, is monotone; a missing, null or NaN first value
makes the pixel hook return the unmapped sentinel `none` instead of
feeding NaN to the colormap; and the grid pixel normalization of
src/states.js computes the same clamped quotient on such ranges. -/
theorem normalize_spec (mn mx : ℚ) (h : mn < mx) :
    (∀ v, appNormalize mn mx v = max 0 (min 1 ((v - mn) / (mx - mn)))) ∧
    appNormalize mn mx mn = 0 ∧
    appNormalize mn mx mx = 1 ∧
    (∀ v w, v ≤ w → appNormalize mn mx v ≤ appNormalize mn mx w) ∧
    (∀ (base : ℚ → ℚ) (vals : List JsNum),
      vals.head? = none ∨ vals.head? = some none →
      appPixelColor base mn mx vals = none) ∧
    (∀ (gs : GridState) (v : ℚ),
      gs.currentGridEntry = some ⟨some mn, some mx⟩ →
      gs.gridDisplayMax = none →
      gridPixelT gs v = some (appNormalize mn mx v)) := by
  have hd : 0 < mx - mn := sub_pos.mpr h
  have hne : mx - mn ≠ 0 := ne_of_gt hd
  refine ⟨fun v => rfl, ?_, ?_, ?_, ?_, ?_⟩
  · unfold appNormalize clamp01
    rw [sub_self, zero_div]
    norm_num
  · unfold appNormalize clamp01
    rw [div_self (ne_of_gt hd)]
    norm_num
  · intro v w hvw
    unfold appNormalize clamp01
    have : (v - mn) / (mx - mn) ≤ (w - mn) / (mx - mn) :=
      (div_le_div_iff_of_pos_right hd).mpr (by linarith)
    exact max_le_max (le_refl 0) (min_le_min (le_refl 1) this)
  · intro base vals hv
    unfold appPixelColor
    rcases hv with hv | hv <;> rw [hv]
  · intro gs v he hg
    have hmin : gridMinOf gs = some mn := by simp [gridMinOf, he]
    have hmax : gridMaxOf gs = some mx := by
      simp [gridMaxOf, gridMaxRawOf, he, hg]
    have hden : gridDenom gs = some (mx - mn) := by
      simp [gridDenom, hmax, hmin, jsub, orOne, hne]
    unfold gridPixelT
    rw [hmin, hden]
    simp [jsub, jdiv, jmin, jmax, appNormalize, clamp01]

/-- Witness for C4 at the concrete range `(0, 10)`:
normalizing the lower bound gives `0`. -/
theorem normalize_spec_witness :
    appNormalize 0 10 0 = 0 :=
  (normalize_spec 0 10 (by norm_num)).2.1

/-- C5: for every base colormap, every display range with `min < max`,
and every `t` in `[0, 1]`, the legend gradient stop at `t` produced by
`makeLegend` coincides with the color the pixel-evaluation hook produces
for any raw value whose normalization is `t`: the legend and the raster
coloring realize one and the same color function. -/
theorem legend_pixel_consistency {α : Type} (base : ℚ → α)
    (mn mx t v : ℚ) (h : mn < mx) (ht0 : 0 ≤ t) (ht1 : t ≤ 1)
    (hv : appNormalize mn mx v = t) :
    appPixelColor base mn mx [some v] = some (makeLegendStop base mn mx t) := by
  have hd : mx - mn ≠ 0 := ne_of_gt (sub_pos.mpr h)
  have hleg : makeLegendStop base mn mx t = base t := by
    unfold makeLegendStop chromaScaleDomain
    have : (mn + t * (mx - mn) - mn) / (mx - mn) = t := by
      rw [add_sub_cancel_left, mul_div_assoc, div_self hd, mul_one]
    rw [this]
    unfold clamp01
    rw [min_eq_right ht1, max_eq_right ht0]
  have hclamp : clamp01 (appNormalize mn mx v) = appNormalize mn mx v := by
    unfold appNormalize clamp01
    rcases le_total 1 ((v - mn) / (mx - mn)) with h1 | h1
    · rw [min_eq_left h1]
      norm_num
    · rw [min_eq_right h1]
      rcases le_total 0 ((v - mn) / (mx - mn)) with h2 | h2
      · rw [max_eq_right h2, min_eq_right h1, max_eq_right h2]
      · rw [max_eq_left h2, min_eq_right (by linarith : (0:ℚ) ≤ 1),
          max_eq_left (le_refl 0)]
  unfold appPixelColor
  simp only [List.head?]
  unfold chromaScale01
  rw [hclamp, hv, hleg]

/-- Witness for C5 at the range `(0, 10)`, value `5`, `t = 1/2`, base
colormap the identity on rationals. -/
theorem legend_pixel_consistency_witness :
    appPixelColor (fun q => q) 0 10 [some 5] =
      some (makeLegendStop (fun q => q) 0 10 (1/2)) :=
  legend_pixel_consistency (fun q => q) 0 10 (1/2) 5 (by norm_num)
    (by norm_num) (by norm_num)
    (by unfold appNormalize clamp01; norm_num)

/-- The legend update never touches the stored display maximum. -/
lemma updateGridLegend_gridDisplayMax (gs : GridState) :
    (updateGridLegend gs).gridDisplayMax = gs.gridDisplayMax := by
  unfold updateGridLegend
  cases gs.currentGridEntry <;> rfl

/-- The guarded denominator is always a nonzero finite number. -/
lemma gridDenom_nonzero (gs : GridState) :
    ∃ q : ℚ, gridDenom gs = some q ∧ q ≠ 0 := by
  unfold gridDenom
  cases h : jsub (gridMaxOf gs) (gridMinOf gs) with
  | none => exact ⟨1, rfl, one_ne_zero⟩
  | some d =>
    by_cases hd : d = 0
    · exact ⟨1, by simp [orOne, hd], one_ne_zero⟩
    · exact ⟨d, by simp [orOne, hd], hd⟩

/-- C7 (amended): in the src/states.js grid pipeline, an entry with
degenerate or non-finite reported bounds disables the range slider and
clears its value text, and the pixel normalization denominator is
always nonzero because a zero difference is replaced by `1`; the app.js
pipeline carries no such guards (see the counterexample). -/
theorem grid_degenerate_guard :
    (∀ (gs : GridState) (e : GridEntry), gs.currentGridEntry = some e →
      degenerateBounds e →
      (syncGridMaxSliderFromEntry gs).sliderDisabled = true ∧
      (syncGridMaxSliderFromEntry gs).sliderText = none) ∧
    (∀ gs : GridState, ∃ q : ℚ, gridDenom gs = some q ∧ q ≠ 0) := by
  constructor
  · intro gs e he hdeg
    obtain ⟨emin, emax⟩ := e
    cases emin with
    | none => cases emax <;> simp [syncGridMaxSliderFromEntry, he]
    | some a =>
      cases emax with
      | none => simp [syncGridMaxSliderFromEntry, he]
      | some b =>
        have hb : b ≤ a := hdeg
        simp [syncGridMaxSliderFromEntry, he, hb]
  · exact gridDenom_nonzero

/-- Witness for C7 amended: an entry with equal reported bounds
disables the slider after synchronization. -/
theorem grid_degenerate_guard_witness :
    (syncGridMaxSliderFromEntry
      { gridEmpty0 with currentGridEntry := some ⟨some 5, some 5⟩ }).sliderDisabled
      = true :=
  (grid_degenerate_guard.1 _ ⟨some 5, some 5⟩ rfl (le_refl 5)).1

/-- Counterexample for C7 as stated: loading the app.js pipeline with a
degenerate manifest entry (`min = max = 5`) installs the degenerate
display range, renders a legend for it instead of reporting a
no-variation state, and the unguarded pixel normalization denominator
`displayMax - displayMin` evaluates to `0` — the division by zero is
reachable. -/
theorem degenerate_guard_counterexample :
    (issueLoadLayer 1 1 (some ⟨5, 5⟩) appEmpty0).displayMin = some 5 ∧
    (issueLoadLayer 1 1 (some ⟨5, 5⟩) appEmpty0).displayMax = some 5 ∧
    appDenom (issueLoadLayer 1 1 (some ⟨5, 5⟩) appEmpty0) = some 0 ∧
    (issueLoadLayer 1 1 (some ⟨5, 5⟩) appEmpty0).legend = some (5, 5) := by
  refine ⟨rfl, rfl, ?_, rfl⟩
  norm_num [appDenom, issueLoadLayer, appEmpty0, jsub]

/-- C9 (amended): the app.js range controller `updateColorScale` stores
caller-supplied bounds unclamped whenever `min < max`; but in the
src/states.js grid pipeline the user display maximum is clamped back
into the reported data bounds by `syncGridMaxSliderFromEntry`, and the
slider input handler can only produce values inside the data bounds by
construction. -/
theorem range_clamp_policy :
    (∀ (st : AppState) (mn mx : ℚ), mn < mx →
      (updateColorScale st mn mx).displayMin = some mn ∧
      (updateColorScale st mn mx).displayMax = some mx ∧
      (updateColorScale st mn mx).legend = some (mn, mx)) ∧
    (∀ (gs : GridState) (e : GridEntry) (a b : ℚ),
      gs.currentGridEntry = some e → e.min = some a → e.max = some b →
      a < b →
      ∃ g : ℚ, (syncGridMaxSliderFromEntry gs).gridDisplayMax = some g ∧
        a ≤ g ∧ g ≤ b) ∧
    (∀ (gs : GridState) (e : GridEntry) (a b sv : ℚ),
      gs.currentGridEntry = some e → e.min = some a → e.max = some b →
      a < b → 0 ≤ sv → sv ≤ 1000 →
      ∃ g : ℚ, (gridMaxSliderInput gs sv).gridDisplayMax = some g ∧
        a ≤ g ∧ g ≤ b) := by
  refine ⟨?_, ?_, ?_⟩
  · intro st mn mx h
    unfold updateColorScale
    rw [if_neg (not_le.mpr h)]
    exact ⟨rfl, rfl, rfl⟩
  · intro gs e a b he ha hb hab
    obtain ⟨emin, emax⟩ := e
    cases ha
    cases hb
    have hnot : ¬ b ≤ a := not_le.mpr hab
    refine ⟨max a (min b (match gs.gridDisplayMax with | none => b | some g => g)),
      ?_, le_max_left _ _, max_le (le_of_lt hab) (min_le_left _ _)⟩
    simp [syncGridMaxSliderFromEntry, he, hnot]
  · intro gs e a b sv he ha hb hab hsv0 hsv1
    obtain ⟨emin, emax⟩ := e
    cases ha
    cases hb
    have hnot : ¬ b ≤ a := not_le.mpr hab
    refine ⟨a + sv / 1000 * (b - a), ?_, ?_, ?_⟩
    · simp [gridMaxSliderInput, he, hnot, updateGridLegend_gridDisplayMax]
    · have h0 : 0 ≤ sv / 1000 * (b - a) :=
        mul_nonneg (div_nonneg hsv0 (by norm_num)) (le_of_lt (sub_pos.mpr hab))
      linarith
    · have h1 : sv / 1000 ≤ 1 := by
        rw [div_le_one (by norm_num : (0:ℚ) < 1000)]
        exact hsv1
      have h2 : sv / 1000 * (b - a) ≤ 1 * (b - a) :=
        mul_le_mul_of_nonneg_right h1 (le_of_lt (sub_pos.mpr hab))
      linarith

/-- Witness for C9 amended: the app.js controller stores the bound `0`
unchanged for the valid range `(0, 10)`. -/
theorem range_clamp_policy_witness :
    (updateColorScale appEmpty0 0 10).displayMin = some 0 :=
  (range_clamp_policy.1 appEmpty0 0 10 (by norm_num)).1

/-- Counterexample for C9 as stated: with reported bounds `(0, 10)` and
a caller-supplied display maximum `15` (which keeps `min < max`), the
states.js synchronization stores `10`, not `15`: the value is clamped
back into the reported bounds. -/
theorem range_clamp_counterexample :
    (syncGridMaxSliderFromEntry
      { gridEmpty0 with currentGridEntry := some ⟨some 0, some 10⟩,
                        gridDisplayMax := some 15 }).gridDisplayMax = some 10 := by
  unfold syncGridMaxSliderFromEntry gridEmpty0
  norm_num [min_def, max_def]

/-- C10: the grid pixel-color function of src/states.js is total: it
returns `none` exactly when the first band value is missing, null or
NaN; any finite first value produces a color even with no grid entry
installed (bounds default to `0` and `1`); the normalized value fed to
the colormap is never NaN (under finite manifest bounds), and the
normalization denominator is never zero. -/
theorem gridPixelColor_total {α : Type} (base : JsNum → α) (gs : GridState)
    (hfin : gs.currentGridEntry = none ∨
      ∃ (e : GridEntry) (a b : ℚ), gs.currentGridEntry = some e ∧
        e.min = some a ∧ e.max = some b) :
    (∀ vals : List JsNum,
      gridPixelColor base gs vals = none ↔
        (vals.head? = none ∨ vals.head? = some none)) ∧
    (∀ (v : ℚ) (rest : List JsNum),
      (gridPixelColor base gs (some v :: rest)).isSome = true) ∧
    (∀ v : ℚ, (gridPixelT gs v).isSome = true) ∧
    (∃ q : ℚ, gridDenom gs = some q ∧ q ≠ 0) := by
  have hmn : ∃ a : ℚ, gridMinOf gs = some a := by
    rcases hfin with h | ⟨e, a, b, he, ha, hb⟩
    · exact ⟨0, by simp [gridMinOf, h]⟩
    · exact ⟨a, by simp [gridMinOf, he, ha]⟩
  have hmxr : ∃ b : ℚ, gridMaxRawOf gs = some b := by
    rcases hfin with h | ⟨e, a, b, he, ha, hb⟩
    · exact ⟨1, by simp [gridMaxRawOf, h]⟩
    · exact ⟨b, by simp [gridMaxRawOf, he, hb]⟩
  obtain ⟨q, hq, hq0⟩ := gridDenom_nonzero gs
  have hT : ∀ v : ℚ, ∃ t : ℚ, gridPixelT gs v = some t := by
    intro v
    obtain ⟨a, ha⟩ := hmn
    unfold gridPixelT
    rw [ha, hq]
    exact ⟨_, rfl⟩
  refine ⟨?_, ?_, ?_, ⟨q, hq, hq0⟩⟩
  · intro vals
    match vals with
    | [] => simp [gridPixelColor]
    | none :: rest => simp [gridPixelColor]
    | some v :: rest => simp [gridPixelColor]
  · intro v rest
    unfold gridPixelColor
    simp
  · intro v
    obtain ⟨t, ht⟩ := hT v
    rw [ht]
    rfl

/-- Witness for C10: with no grid entry installed, a finite first value
still yields a color. -/
theorem gridPixelColor_total_witness :
    (gridPixelColor (fun _ => (0:ℚ)) gridEmpty0 [some 3]).isSome = true :=
  (gridPixelColor_total (fun _ => (0:ℚ)) gridEmpty0 (Or.inl rfl)).2.1 3 []

/-- C2 (code bug): calling `updateColorScale` with slider values that
invert the range (min 5, max 3, against a prior valid range `(0, 10)`)
does store the degenerate bounds — only the legend and the redraw are
skipped.  The stored range, which the pixel hook reads dynamically on
the next repaint, is not what it was before the call, contradicting the
intent of the guard comment in src/app.js line 185. -/
theorem updateColorScale_mutates :
    (updateColorScale appLegend0 5 3).displayMin = some 5 ∧
    (updateColorScale appLegend0 5 3).displayMax = some 3 ∧
    (updateColorScale appLegend0 5 3).legend = some (0, 10) ∧
    (updateColorScale appLegend0 5 3).displayMin ≠ appLegend0.displayMin := by
  refine ⟨?_, ?_, ?_, ?_⟩ <;>
    norm_num [updateColorScale, appLegend0]

/-- C6 (code bug): a dataset selection whose manifest entry is missing
leaves stale UI visible.  In src/app.js `loadLayer` returns before
removing anything, so the prior overlay and legend both survive; in
src/states.js `setGridLayer` removes the overlay but never calls
`updateGridLegend` on the miss path, so the prior legend survives. -/
theorem manifest_miss_stale :
    issueLoadLayer 1 7 none appLegend0 = appLegend0 ∧
    (setGridLayerMissBranch gridStale0).mapLayers = [] ∧
    (setGridLayerMissBranch gridStale0).legendHTML = some (some 0, some 10) ∧
    (setGridLayerMissBranch gridStale0).legendHTML ≠ none :=
  ⟨rfl, rfl, rfl,
    by simp [setGridLayerMissBranch, syncGridMaxSliderFromEntry, gridStale0]⟩

/-- C1 (code bug): `loadLayer` carries no supersede check, so when the
earlier load resolves after the later one, the earlier dataset is the
one finally installed as the active georaster, and both layers end up
added to the map — the final state is not Ready of the most recently
issued request. -/
theorem stale_load_installed :
    raceTrace.currentGeoraster = some 1 ∧
    raceTrace.currentGeoraster ≠ some 2 ∧
    raceTrace.mapLayers = [1, 2] := by
  refine ⟨rfl, ?_, rfl⟩
  decide

/-- The mousemove handler leaves the state unchanged whenever the
`hoverRAF` guard is set. -/
lemma hoverMousemove_some (cb : Nat) (st : HoverState)
    (h : st.hoverRAF ≠ none) : hoverMousemove cb st = st := by
  unfold hoverMousemove
  cases hr : st.hoverRAF with
  | none => exact absurd hr h
  | some c => rfl

/-- Invariant of the hover machine: the guard tracks the scheduled
callback exactly — no callback scheduled when the guard is clear, and
exactly the recorded one when it is set. -/
lemma hover_guard_scheduled (st : HoverState) (h : HoverReachable st) :
    (st.hoverRAF = none → st.scheduled = []) ∧
    (∀ c, st.hoverRAF = some c → st.scheduled = [c]) := by
  induction h with
  | init => exact ⟨fun _ => rfl, fun c hc => by cases hc⟩
  | move cb st h ih =>
    cases hr : st.hoverRAF with
    | some c =>
      rw [hoverMousemove_some cb st (by rw [hr]; simp)]
      exact ih
    | none =>
      have hsch := ih.1 hr
      have hmv : hoverMousemove cb st =
          { st with hoverRAF := some cb, scheduled := cb :: st.scheduled } := by
        unfold hoverMousemove
        rw [hr]
      rw [hmv]
      constructor
      · intro hcontra
        simp at hcontra
      · intro c hc
        have hcb : cb = c := by simpa using hc
        subst hcb
        simp [hsch]
  | fire cb st h ih =>
    by_cases hmem : cb ∈ st.scheduled
    · have hfi : hoverFire cb st =
          { st with hoverRAF := none, scheduled := st.scheduled.erase cb,
                    inFlight := cb :: st.inFlight } := by
        unfold hoverFire
        rw [if_pos hmem]
      rw [hfi]
      cases hr : st.hoverRAF with
      | none =>
        rw [ih.1 hr] at hmem
        simp at hmem
      | some c =>
        have hsch := ih.2 c hr
        rw [hsch] at hmem ⊢
        have hcb : cb = c := by simpa using hmem
        subst hcb
        constructor
        · intro
          simp
        · intro c₂ hc₂
          simp at hc₂
    · have hfi : hoverFire cb st = st := by
        unfold hoverFire
        rw [if_neg hmem]
      rw [hfi]
      exact ih
  | res cb st h ih =>
    exact ih

/-- C8 (amended): in every reachable hover state at most one
animation-frame callback is scheduled, and a pointer-move arriving
while one is scheduled but not yet run is dropped with the state
unchanged.  The guard is cleared when the callback starts, before its
asynchronous fetch, so this coalescing does not extend across the fetch
(see the counterexample). -/
theorem hover_frame_coalescing (st : HoverState) (h : HoverReachable st) :
    st.scheduled.length ≤ 1 ∧
    (∀ cb : Nat, st.hoverRAF ≠ none → hoverMousemove cb st = st) := by
  constructor
  · cases hr : st.hoverRAF with
    | none =>
      rw [(hover_guard_scheduled st h).1 hr]
      simp
    | some c =>
      rw [(hover_guard_scheduled st h).2 c hr]
      simp
  · intro cb hne
    exact hoverMousemove_some cb st hne

/-- Witness for C8 amended: after one pointer move, at most one
callback is scheduled. -/
theorem hover_frame_coalescing_witness :
    (hoverMousemove 1 hoverInitial).scheduled.length ≤ 1 :=
  (hover_frame_coalescing (hoverMousemove 1 hoverInitial)
    (HoverReachable.move 1 hoverInitial HoverReachable.init)).1

/-- Counterexample for C8 as stated: a pointer move that arrives while
the first hover computation's asynchronous fetch is still pending
(guard already cleared when its callback started) is not dropped — the
state changes — and after its callback starts, two hover computations
are in flight simultaneously. -/
theorem hover_overlap_counterexample :
    (hoverFire 2 (hoverMousemove 2 (hoverFire 1 (hoverMousemove 1
      hoverInitial)))).inFlight.length = 2 ∧
    hoverMousemove 2 (hoverFire 1 (hoverMousemove 1 hoverInitial)) ≠
      hoverFire 1 (hoverMousemove 1 hoverInitial) := by
  decide
